import Mathlib

/-!
Shallow embedding of `src/find_x32_ip.py` (the whole repository is this one
41-line script).  The script builds a fixed 12-byte OSC `/info` probe, opens a
UDP socket, enables `SO_BROADCAST`, sets a 2-second receive timeout, sends the
probe to `255.255.255.255:10023`, waits for one reply, prints the sender's IP
on a non-empty reply, and exits.  Lines 14-16 (socket creation and
configuration) sit before the `try` block; lines 18-38 are the
`try`/`except`/`finally`.

The embedding makes the environment's behaviour at each socket call explicit
(an `Env` value) and computes the run's observables: stdout lines, stderr
lines, process exit code, and a trace of socket-level events.
-/

/-- A network endpoint: IPv4 address in dotted-decimal text plus a port,
as Python's `recvfrom` returns it in the tuple `addr`. -/
structure Addr where
  ip : String
  port : Nat
deriving DecidableEq

/-- What the environment does when line 23 (`sock.recvfrom(1024)`) runs:
the 2-second timeout elapses (`socket.timeout`), a datagram arrives with a
payload and a sender address, or the OS raises some other `OSError`. -/
inductive RecvOutcome where
  | timeout : RecvOutcome
  | dgram : List Nat → Addr → RecvOutcome
  | sockError : String → RecvOutcome
deriving DecidableEq

/-- What the environment does when line 20 (`sock.sendto(...)`) runs:
the datagram is accepted by the stack, or the OS raises an `OSError`. -/
inductive SendOutcome where
  | ok : SendOutcome
  | sockError : String → SendOutcome
deriving DecidableEq

/-- One run's environment: whether each of the three pre-`try` calls
(line 14 `socket.socket`, line 15 `setsockopt`, line 16 `settimeout`)
raises (carrying the exception's display text), and the outcomes of the
send and the receive inside the `try` block. -/
structure Env where
  socketErr : Option String
  setsockoptErr : Option String
  settimeoutErr : Option String
  sendRes : SendOutcome
  recvRes : RecvOutcome
deriving DecidableEq

/-- Socket-level events of a run, in order: socket creation (line 14),
enabling `SO_BROADCAST` (line 15), setting the timeout (line 16), sending a
datagram (line 20), receiving (line 23), closing the socket (line 38). -/
inductive Ev where
  | sockCreate : Ev
  | setBroadcast : Ev
  | setTimeoutEv : Ev
  | sendEv : List Nat → Addr → Ev
  | recvEv : Ev
  | closeEv : Ev
deriving DecidableEq

/-- Observables of one run of the script: standard-output lines,
standard-error lines, the process exit status, and the socket event trace. -/
structure RunResult where
  stdoutLines : List String
  stderrLines : List String
  exitCode : Nat
  events : List Ev
deriving DecidableEq

/-- Line 11 of the source: the fixed probe payload
`b'\x2f\x69\x6e\x66\x6f\x00\x00\x00\x2c\x00\x00\x00'`, bytes as naturals. -/
def packet : List Nat :=
  [0x2f, 0x69, 0x6e, 0x66, 0x6f, 0x00, 0x00, 0x00, 0x2c, 0x00, 0x00, 0x00]

/-- Line 20 of the source: the fixed destination `('255.255.255.255', 10023)`. -/
def broadcastAddr : Addr := ⟨"255.255.255.255", 10023⟩

/-- Line 35 of the source: the one diagnostic line the generic handler prints,
`f"An error occurred: {e}"`. -/
def errorLine (msg : String) : String := "An error occurred: " ++ msg

/-- CPython's report for an exception that propagates out of the script
uninterrupted (raised on lines 14-16, which are outside the `try`): a
multi-line traceback on stderr ending in the exception's display text, and
the interpreter exits with status 1. -/
def pythonTraceback (msg : String) : List String :=
  ["Traceback (most recent call last):",
   "  File find_x32_ip.py, line 41, in <module>",
   "    find_x32()",
   msg]

/-- The whole script (`find_x32` plus the `__main__` call), translated
branch-by-branch from `src/find_x32_ip.py`:

* line 14 raising: uncaught (outside `try`), traceback, exit 1, no socket;
* line 15 or 16 raising: uncaught, traceback, exit 1, socket never closed
  (the `finally` on line 37 guards only the `try` body);
* line 20 raising: caught on line 33, one stderr line, `sys.exit(1)`,
  `finally` closes the socket;
* line 23 timing out: caught on line 30, silent `sys.exit(1)`, socket closed;
* line 23 raising otherwise: caught on line 33, one stderr line, exit 1,
  socket closed;
* a datagram with non-empty payload: `if data:` is true, line 27 prints
  `addr[0]`, `sys.exit(0)` raises `SystemExit` which neither handler catches
  (`SystemExit` is not a subclass of `Exception`), socket closed, exit 0;
* a datagram with empty payload: `if data:` is false, the `try` body falls
  through, socket closed, `find_x32` returns, the script ends with exit 0. -/
def find_x32 (env : Env) : RunResult :=
  match env.socketErr with
  | some msg =>
      { stdoutLines := [], stderrLines := pythonTraceback msg, exitCode := 1,
        events := [] }
  | none =>
    match env.setsockoptErr with
    | some msg =>
        { stdoutLines := [], stderrLines := pythonTraceback msg, exitCode := 1,
          events := [Ev.sockCreate] }
    | none =>
      match env.settimeoutErr with
      | some msg =>
          { stdoutLines := [], stderrLines := pythonTraceback msg, exitCode := 1,
            events := [Ev.sockCreate, Ev.setBroadcast] }
      | none =>
        match env.sendRes with
        | SendOutcome.sockError msg =>
            { stdoutLines := [], stderrLines := [errorLine msg], exitCode := 1,
              events := [Ev.sockCreate, Ev.setBroadcast, Ev.setTimeoutEv,
                         Ev.closeEv] }
        | SendOutcome.ok =>
          match env.recvRes with
          | RecvOutcome.timeout =>
              { stdoutLines := [], stderrLines := [], exitCode := 1,
                events := [Ev.sockCreate, Ev.setBroadcast, Ev.setTimeoutEv,
                           Ev.sendEv packet broadcastAddr, Ev.closeEv] }
          | RecvOutcome.sockError msg =>
              { stdoutLines := [], stderrLines := [errorLine msg], exitCode := 1,
                events := [Ev.sockCreate, Ev.setBroadcast, Ev.setTimeoutEv,
                           Ev.sendEv packet broadcastAddr, Ev.closeEv] }
          | RecvOutcome.dgram payload src =>
              if payload = [] then
                { stdoutLines := [], stderrLines := [], exitCode := 0,
                  events := [Ev.sockCreate, Ev.setBroadcast, Ev.setTimeoutEv,
                             Ev.sendEv packet broadcastAddr, Ev.recvEv,
                             Ev.closeEv] }
              else
                { stdoutLines := [src.ip], stderrLines := [], exitCode := 0,
                  events := [Ev.sockCreate, Ev.setBroadcast, Ev.setTimeoutEv,
                             Ev.sendEv packet broadcastAddr, Ev.recvEv,
                             Ev.closeEv] }

/-- The datagrams a run sent, read off its event trace. -/
def sentDatagrams (es : List Ev) : List (List Nat × Addr) :=
  es.filterMap fun e =>
    match e with
    | Ev.sendEv p d => some (p, d)
    | _ => none

/-- Whether the run's trace contains the explicit `sock.close()` of line 38. -/
def socketClosed (es : List Ev) : Bool :=
  es.any fun e =>
    match e with
    | Ev.closeEv => true
    | _ => false

/-- Whether the run's trace contains the socket creation of line 14. -/
def socketCreated (es : List Ev) : Bool :=
  es.any fun e =>
    match e with
    | Ev.sockCreate => true
    | _ => false

/-- Whether a run's environment delivers a reply: every call before the
receive succeeds and the receive yields a datagram. -/
def replyReceived (env : Env) : Bool :=
  match env.socketErr, env.setsockoptErr, env.settimeoutErr,
        env.sendRes, env.recvRes with
  | none, none, none, SendOutcome.ok, RecvOutcome.dgram _ _ => true
  | _, _, _, _, _ => false

/-- Scans a trace and checks that every send event is preceded by a
`setBroadcast` event; the flag records whether one has been seen. -/
def sendsAfterBroadcast : Bool → List Ev → Bool
  | _, [] => true
  | _, Ev.setBroadcast :: rest => sendsAfterBroadcast true rest
  | seen, Ev.sendEv _ _ :: rest => seen && sendsAfterBroadcast seen rest
  | seen, _ :: rest => sendsAfterBroadcast seen rest

/-! Claim C1. -/

/-- Environment in which a datagram with an empty payload arrives from
`192.168.1.50` within the timeout window. -/
def cexEnvC1 : Env :=
  ⟨none, none, none, SendOutcome.ok,
   RecvOutcome.dgram [] ⟨"192.168.1.50", 51000⟩⟩

/-- Claim C1, counterexample: a datagram from sender `192.168.1.50` arrives
within the timeout window, yet the program does not print that address
(the payload is empty, so `if data:` is false and nothing is printed,
although the exit status is still 0). -/
theorem C1_counterexample :
    cexEnvC1.recvRes = RecvOutcome.dgram [] ⟨"192.168.1.50", 51000⟩ ∧
    (find_x32 cexEnvC1).stdoutLines ≠ ["192.168.1.50"] ∧
    (find_x32 cexEnvC1).exitCode = 0 := by
  refine ⟨rfl, ?_, rfl⟩
  decide

/-- Claim C1 as amended: in every run in which a datagram with a NON-EMPTY
payload arrives from sender address `src` within the timeout window, the
program prints exactly `src.ip` (one line) to standard output and exits
with status 0. -/
theorem C1_amended (env : Env) (payload : List Nat) (src : Addr)
    (h1 : env.socketErr = none) (h2 : env.setsockoptErr = none)
    (h3 : env.settimeoutErr = none) (h4 : env.sendRes = SendOutcome.ok)
    (h5 : env.recvRes = RecvOutcome.dgram payload src)
    (h6 : payload ≠ []) :
    (find_x32 env).stdoutLines = [src.ip] ∧ (find_x32 env).exitCode = 0 := by
  cases env
  simp only at h1 h2 h3 h4 h5
  subst h1 h2 h3 h4 h5
  simp [find_x32, h6]

/-- Environment for the C1 witness: a one-byte reply from `10.0.0.5`. -/
def envW1 : Env :=
  ⟨none, none, none, SendOutcome.ok,
   RecvOutcome.dgram [47] ⟨"10.0.0.5", 10023⟩⟩

/-- Witness for `C1_amended` at a concrete environment. -/
theorem C1_amended_witness :
    (find_x32 envW1).stdoutLines = ["10.0.0.5"] ∧
    (find_x32 envW1).exitCode = 0 :=
  C1_amended envW1 [47] ⟨"10.0.0.5", 10023⟩ rfl rfl rfl rfl rfl (by decide)

/-! Claim C2. -/

/-- Environment receiving a one-byte payload from `172.16.0.9`. -/
def cexEnvC2a : Env :=
  ⟨none, none, none, SendOutcome.ok,
   RecvOutcome.dgram [0x58] ⟨"172.16.0.9", 40000⟩⟩

/-- Environment receiving an empty payload from the same sender
`172.16.0.9`. -/
def cexEnvC2b : Env :=
  ⟨none, none, none, SendOutcome.ok,
   RecvOutcome.dgram [] ⟨"172.16.0.9", 40000⟩⟩

/-- Claim C2, counterexample: two runs receive datagrams from the same sender
address but with different payloads (one byte versus empty), and their
standard-output contents differ — so the payload bytes do influence the
observable output, through the `if data:` emptiness test on line 26. -/
theorem C2_counterexample :
    (find_x32 cexEnvC2a).stdoutLines ≠ (find_x32 cexEnvC2b).stdoutLines := by
  decide

/-- Claim C2 as amended: the payload influences the output only through its
emptiness. Any two runs that receive datagrams from the same sender with
both payloads non-empty have identical observables (stdout, stderr, exit
status, and even the socket event trace); likewise when both are empty. -/
theorem C2_amended (env1 env2 : Env) (p1 p2 : List Nat) (src : Addr)
    (h1a : env1.socketErr = none) (h1b : env1.setsockoptErr = none)
    (h1c : env1.settimeoutErr = none) (h1d : env1.sendRes = SendOutcome.ok)
    (h1e : env1.recvRes = RecvOutcome.dgram p1 src)
    (h2a : env2.socketErr = none) (h2b : env2.setsockoptErr = none)
    (h2c : env2.settimeoutErr = none) (h2d : env2.sendRes = SendOutcome.ok)
    (h2e : env2.recvRes = RecvOutcome.dgram p2 src)
    (hp : p1 = [] ↔ p2 = []) :
    find_x32 env1 = find_x32 env2 := by
  cases env1
  cases env2
  simp only at h1a h1b h1c h1d h1e h2a h2b h2c h2d h2e
  subst h1a h1b h1c h1d h1e h2a h2b h2c h2d h2e
  simp only [find_x32]
  by_cases hc : p1 = []
  · rw [if_pos hc, if_pos (hp.mp hc)]
  · rw [if_neg hc, if_neg fun h => hc (hp.mpr h)]

/-- Environment for the C2 witness: a two-byte reply from `10.1.2.3`. -/
def envW2a : Env :=
  ⟨none, none, none, SendOutcome.ok,
   RecvOutcome.dgram [1, 2] ⟨"10.1.2.3", 9000⟩⟩

/-- Environment for the C2 witness: a different three-byte reply from the
same sender `10.1.2.3`. -/
def envW2b : Env :=
  ⟨none, none, none, SendOutcome.ok,
   RecvOutcome.dgram [7, 8, 9] ⟨"10.1.2.3", 9000⟩⟩

/-- Witness for `C2_amended` at two concrete environments with different
non-empty payloads from the same sender. -/
theorem C2_amended_witness : find_x32 envW2a = find_x32 envW2b :=
  C2_amended envW2a envW2b [1, 2] [7, 8, 9] ⟨"10.1.2.3", 9000⟩
    rfl rfl rfl rfl rfl rfl rfl rfl rfl rfl (by decide)

/-! Claim C3. -/

/-- Environment in which an empty-payload datagram arrives from
`192.168.7.7` within the timeout window. -/
def cexEnvC3 : Env :=
  ⟨none, none, none, SendOutcome.ok,
   RecvOutcome.dgram [] ⟨"192.168.7.7", 52000⟩⟩

/-- Claim C3, counterexample: a run whose exit code is 0 (a reply was
received) but on which zero lines — not exactly one — were written to
standard output, because the received payload was empty. -/
theorem C3_counterexample :
    (find_x32 cexEnvC3).exitCode = 0 ∧
    replyReceived cexEnvC3 = true ∧
    (find_x32 cexEnvC3).stdoutLines.length ≠ 1 := by
  decide

/-- Claim C3 as amended: the exit code is 0 exactly when a reply was
received; and whenever the exit code is 0 AND the received payload was
non-empty, exactly one line (the responder's address) has been written to
standard output.  (An empty-payload reply also exits 0 but prints nothing.) -/
theorem C3_amended (env : Env) :
    ((find_x32 env).exitCode = 0 ↔ replyReceived env = true) ∧
    (∀ p src, env.recvRes = RecvOutcome.dgram p src → p ≠ [] →
      (find_x32 env).exitCode = 0 →
      (find_x32 env).stdoutLines = [src.ip]) := by
  obtain ⟨se, soe, ste, sr, rr⟩ := env
  cases se <;> cases soe <;> cases ste <;> cases sr <;> cases rr <;>
    simp [find_x32, replyReceived]
  rename_i payload src
  by_cases hp : payload = [] <;> simp [hp]

/-- Environment for the C3 witness: a one-byte reply from `10.0.0.7`. -/
def envW3 : Env :=
  ⟨none, none, none, SendOutcome.ok,
   RecvOutcome.dgram [1] ⟨"10.0.0.7", 4242⟩⟩

/-- Witness for `C3_amended` at a concrete environment. -/
theorem C3_amended_witness :
    (find_x32 envW3).stdoutLines = ["10.0.0.7"] :=
  (C3_amended envW3).2 [1] ⟨"10.0.0.7", 4242⟩ rfl (by decide) (by decide)

/-! Claim C4. -/

/-- Environment in which line 15 (`setsockopt` enabling `SO_BROADCAST`)
raises a permission error, as in a sandboxed environment. -/
def cexEnvC4 : Env :=
  ⟨none, some "PermissionError: [Errno 13] Permission denied", none,
   SendOutcome.ok, RecvOutcome.timeout⟩

/-- Claim C4, counterexample: a socket-level failure while configuring the
endpoint (broadcast permission denied on line 15, which is outside the
`try` block) makes the interpreter print a multi-line traceback, not
exactly one line, to standard error (stdout stays empty and the exit
status is 1, as the claim says). -/
theorem C4_counterexample :
    (find_x32 cexEnvC4).stderrLines.length ≠ 1 ∧
    (find_x32 cexEnvC4).stdoutLines = [] ∧
    (find_x32 cexEnvC4).exitCode = 1 := by
  decide

/-- Claim C4 as amended: for a socket-level failure during the send or the
receive (inside the `try` block), the program writes exactly one non-empty
line of descriptive text to standard error, writes nothing to standard
output, and exits with status 1; for a failure while opening or configuring
the endpoint (lines 14-16, outside the `try` block), the program writes a
non-empty diagnostic — a multi-line uncaught-exception traceback, not a
single line — to standard error, writes nothing to standard output, and
exits with status 1. -/
theorem C4_amended (env : Env) (msg : String) :
    ((env.socketErr = none ∧ env.setsockoptErr = none ∧
      env.settimeoutErr = none ∧
      (env.sendRes = SendOutcome.sockError msg ∨
       (env.sendRes = SendOutcome.ok ∧
        env.recvRes = RecvOutcome.sockError msg))) →
      (find_x32 env).stderrLines = [errorLine msg] ∧
      0 < (errorLine msg).length ∧
      (find_x32 env).stdoutLines = [] ∧
      (find_x32 env).exitCode = 1) ∧
    ((env.socketErr = some msg ∨
      (env.socketErr = none ∧ env.setsockoptErr = some msg) ∨
      (env.socketErr = none ∧ env.setsockoptErr = none ∧
       env.settimeoutErr = some msg)) →
      (find_x32 env).stderrLines ≠ [] ∧
      (find_x32 env).stdoutLines = [] ∧
      (find_x32 env).exitCode = 1) := by
  obtain ⟨se, soe, ste, sr, rr⟩ := env
  constructor
  · rintro ⟨rfl, rfl, rfl, hcase⟩
    have hlen : 0 < (errorLine msg).length := by
      simp only [errorLine, String.length_append]
      have h19 : 0 < "An error occurred: ".length := by decide
      omega
    rcases hcase with rfl | ⟨rfl, rfl⟩ <;>
      exact ⟨rfl, hlen, rfl, rfl⟩
  · rintro (rfl | ⟨rfl, rfl⟩ | ⟨rfl, rfl, rfl⟩) <;>
      exact ⟨by simp [find_x32, pythonTraceback], rfl, rfl⟩

/-- Environment for the C4 witness: the receive raises a network error. -/
def envW4 : Env :=
  ⟨none, none, none, SendOutcome.ok,
   RecvOutcome.sockError "OSError: [Errno 101] Network is unreachable"⟩

/-- Witness for `C4_amended` at a concrete environment whose receive fails. -/
theorem C4_amended_witness :
    (find_x32 envW4).stderrLines =
      [errorLine "OSError: [Errno 101] Network is unreachable"] ∧
    0 < (errorLine "OSError: [Errno 101] Network is unreachable").length ∧
    (find_x32 envW4).stdoutLines = [] ∧
    (find_x32 envW4).exitCode = 1 :=
  (C4_amended envW4 "OSError: [Errno 101] Network is unreachable").1
    ⟨rfl, rfl, rfl, Or.inr ⟨rfl, rfl⟩⟩

/-! Claim C5. -/

/-- Environment in which line 16 (`settimeout`) raises after the socket was
created: a failure while configuring the endpoint. -/
def cexEnvC5 : Env :=
  ⟨none, none, some "OSError: configuration failed", SendOutcome.ok,
   RecvOutcome.timeout⟩

/-- Claim C5, counterexample: when configuring the endpoint fails (line 16
raises, before the `try` block is entered), the socket was created but the
program never calls `sock.close()` — the `finally` clause on line 37 guards
only the `try` body, so this exit path ends without closing the socket. -/
theorem C5_counterexample :
    socketCreated (find_x32 cexEnvC5).events = true ∧
    socketClosed (find_x32 cexEnvC5).events = false := by
  decide

/-- Claim C5 as amended: on every exit path that reaches the `try` block
(socket creation and both configuration calls succeeded) — success,
timeout, or send/receive error — the socket is closed before the process
ends; a failure while configuring the endpoint, however, skips the close. -/
theorem C5_amended (env : Env)
    (h1 : env.socketErr = none) (h2 : env.setsockoptErr = none)
    (h3 : env.settimeoutErr = none) :
    socketClosed (find_x32 env).events = true := by
  obtain ⟨se, soe, ste, sr, rr⟩ := env
  simp only at h1 h2 h3
  subst h1 h2 h3
  cases sr <;> cases rr <;> simp [find_x32, socketClosed] <;>
    rename_i payload src <;>
    by_cases hp : payload = [] <;> simp [hp, socketClosed]

/-- Environment for the C5 witness: a clean run that times out. -/
def envW5 : Env := ⟨none, none, none, SendOutcome.ok, RecvOutcome.timeout⟩

/-- Witness for `C5_amended` at a concrete environment. -/
theorem C5_amended_witness : socketClosed (find_x32 envW5).events = true :=
  C5_amended envW5 rfl rfl rfl

/-! Claim C6. -/

/-- Claim C6, confirmed: in every run where the setup and the send succeed
and no datagram arrives before the 2-second receive timeout elapses
(`socket.timeout` is raised on line 23 and caught on line 30), the program
writes nothing to standard output, nothing to standard error, and exits
with status 1. -/
theorem C6_timeout_silent (env : Env)
    (h1 : env.socketErr = none) (h2 : env.setsockoptErr = none)
    (h3 : env.settimeoutErr = none) (h4 : env.sendRes = SendOutcome.ok)
    (h5 : env.recvRes = RecvOutcome.timeout) :
    (find_x32 env).stdoutLines = [] ∧ (find_x32 env).stderrLines = [] ∧
    (find_x32 env).exitCode = 1 := by
  obtain ⟨se, soe, ste, sr, rr⟩ := env
  simp only at h1 h2 h3 h4 h5
  subst h1 h2 h3 h4 h5
  exact ⟨rfl, rfl, rfl⟩

/-- Environment for the C6 witness: a clean run with no reply. -/
def envW6 : Env := ⟨none, none, none, SendOutcome.ok, RecvOutcome.timeout⟩

/-- Witness for `C6_timeout_silent` at a concrete environment. -/
theorem C6_timeout_silent_witness :
    (find_x32 envW6).stdoutLines = [] ∧ (find_x32 envW6).stderrLines = [] ∧
    (find_x32 envW6).exitCode = 1 :=
  C6_timeout_silent envW6 rfl rfl rfl rfl rfl

/-! Claim C7. -/

/-- Environment in which line 14 (`socket.socket`) itself raises, so the
run ends before anything is sent. -/
def cexEnvC7 : Env :=
  ⟨some "OSError: [Errno 24] Too many open files", none, none,
   SendOutcome.ok, RecvOutcome.timeout⟩

/-- Claim C7, counterexample: an invocation in which socket creation fails
sends zero UDP datagrams, not exactly one — so "for every invocation, the
program sends exactly one UDP datagram" is false as stated. -/
theorem C7_counterexample :
    (sentDatagrams (find_x32 cexEnvC7).events).length ≠ 1 := by
  decide

/-- Claim C7 as amended: every invocation sends AT MOST one UDP datagram;
every datagram ever sent has exactly the fixed 12-byte payload
`2F 69 6E 66 6F 00 00 00 2C 00 00 00` and destination
`255.255.255.255:10023`; in every run where the setup and the send succeed,
exactly one such datagram is sent; and the payload and destination are
constants of the program, never constructed dynamically or parameterized. -/
theorem C7_amended (env : Env) :
    (sentDatagrams (find_x32 env).events).length ≤ 1 ∧
    (∀ p d, (p, d) ∈ sentDatagrams (find_x32 env).events →
      p = [0x2f, 0x69, 0x6e, 0x66, 0x6f, 0x00, 0x00, 0x00, 0x2c, 0x00,
           0x00, 0x00] ∧
      d = ⟨"255.255.255.255", 10023⟩) ∧
    (env.socketErr = none → env.setsockoptErr = none →
     env.settimeoutErr = none → env.sendRes = SendOutcome.ok →
      sentDatagrams (find_x32 env).events = [(packet, broadcastAddr)]) := by
  obtain ⟨se, soe, ste, sr, rr⟩ := env
  cases se <;> cases soe <;> cases ste <;> cases sr <;> cases rr <;>
    first
    | (rename_i payload src
       by_cases hp : payload = [] <;>
         simp [find_x32, sentDatagrams, hp, packet, broadcastAddr])
    | simp [find_x32, sentDatagrams, packet, broadcastAddr]

/-- Environment for the C7 witness: a clean run with no reply. -/
def envW7 : Env := ⟨none, none, none, SendOutcome.ok, RecvOutcome.timeout⟩

/-- Witness for `C7_amended` at a concrete environment, discharging the
hypotheses of its third conjunct. -/
theorem C7_amended_witness :
    sentDatagrams (find_x32 envW7).events = [(packet, broadcastAddr)] :=
  (C7_amended envW7).2.2 rfl rfl rfl rfl

/-! Claim C8. -/

/-- Claim C8, confirmed: in every run, every send event in the socket event
trace is preceded by the event that enables `SO_BROADCAST` — no send to the
limited broadcast address ever happens on a socket without broadcast
enabled (line 15 runs before line 20 on every path that reaches the send). -/
theorem C8_broadcast_before_send (env : Env) :
    sendsAfterBroadcast false (find_x32 env).events = true := by
  obtain ⟨se, soe, ste, sr, rr⟩ := env
  cases se <;> cases soe <;> cases ste <;> cases sr <;> cases rr <;>
    first
    | (rename_i payload src
       by_cases hp : payload = [] <;>
         simp [find_x32, sendsAfterBroadcast, hp])
    | simp [find_x32, sendsAfterBroadcast]

/-! Claim C9. -/

/-- Claim C9, confirmed: if the first datagram received within the timeout
window has a zero-length payload, then `if data:` on line 26 is false, so
the program prints nothing to standard output and nothing to standard
error, the `finally` clause closes the socket, and the script falls off the
end of `find_x32`, exiting with status 0. -/
theorem C9_empty_payload (env : Env) (src : Addr)
    (h1 : env.socketErr = none) (h2 : env.setsockoptErr = none)
    (h3 : env.settimeoutErr = none) (h4 : env.sendRes = SendOutcome.ok)
    (h5 : env.recvRes = RecvOutcome.dgram [] src) :
    (find_x32 env).stdoutLines = [] ∧ (find_x32 env).stderrLines = [] ∧
    socketClosed (find_x32 env).events = true ∧
    (find_x32 env).exitCode = 0 := by
  obtain ⟨se, soe, ste, sr, rr⟩ := env
  simp only at h1 h2 h3 h4 h5
  subst h1 h2 h3 h4 h5
  simp [find_x32, socketClosed]

/-- Environment for the C9 witness: an empty reply from `10.9.9.9`. -/
def envW9 : Env :=
  ⟨none, none, none, SendOutcome.ok,
   RecvOutcome.dgram [] ⟨"10.9.9.9", 7777⟩⟩

/-- Witness for `C9_empty_payload` at a concrete environment. -/
theorem C9_empty_payload_witness :
    (find_x32 envW9).stdoutLines = [] ∧ (find_x32 envW9).stderrLines = [] ∧
    socketClosed (find_x32 envW9).events = true ∧
    (find_x32 envW9).exitCode = 0 :=
  C9_empty_payload envW9 ⟨"10.9.9.9", 7777⟩ rfl rfl rfl rfl rfl

/-! Claim C10. -/

/-- Claim C10, confirmed: the `sys.exit(0)` raised inside the `try` block
after printing the address is never intercepted by the generic
`except Exception` handler (`SystemExit` is not a subclass of `Exception`,
and the sibling `except socket.timeout` clause does not apply either): on
every success path with a non-empty payload, no error line is written to
standard error and the exit status remains 0. -/
theorem C10_sysexit_not_caught (env : Env) (payload : List Nat) (src : Addr)
    (h1 : env.socketErr = none) (h2 : env.setsockoptErr = none)
    (h3 : env.settimeoutErr = none) (h4 : env.sendRes = SendOutcome.ok)
    (h5 : env.recvRes = RecvOutcome.dgram payload src)
    (h6 : payload ≠ []) :
    (find_x32 env).stderrLines = [] ∧ (find_x32 env).exitCode = 0 := by
  obtain ⟨se, soe, ste, sr, rr⟩ := env
  simp only at h1 h2 h3 h4 h5
  subst h1 h2 h3 h4 h5
  simp [find_x32, h6]

/-- Environment for the C10 witness: a four-byte reply from `10.3.3.3`. -/
def envW10 : Env :=
  ⟨none, none, none, SendOutcome.ok,
   RecvOutcome.dgram [5, 6, 7, 8] ⟨"10.3.3.3", 10023⟩⟩

/-- Witness for `C10_sysexit_not_caught` at a concrete environment. -/
theorem C10_sysexit_not_caught_witness :
    (find_x32 envW10).stderrLines = [] ∧ (find_x32 envW10).exitCode = 0 :=
  C10_sysexit_not_caught envW10 [5, 6, 7, 8] ⟨"10.3.3.3", 10023⟩
    rfl rfl rfl rfl rfl (by decide)
